import Mathlib

/-!
Shallow embedding of the FreeAPI-Hub authentication subsystem
(src/accounts of the repository) in Lean 4, used to settle the
claims of the specification against the code.

Modelling conventions:
- Wall-clock time is a natural number of seconds; the Django helper
  timezone.now() becomes an explicit argument.
- hashlib.sha256(...).hexdigest() is a collision-resistant one-way
  digest; its collision resistance is modelled as exact injectivity
  by a tagging encoding (hash_token below).
- Random material (secrets.token_urlsafe, pyotp.random_base32) is
  passed in as an explicit argument: the services are deterministic
  in the drawn value.
- Database rows become record values; a transaction.atomic block is
  embedded as a single simultaneous record update, with an explicit
  failure-injection flag for failures raised inside the block, in
  which case the pre-state is kept (rollback).
-/

namespace FreeAPI

/-- Model of hash_token in src/accounts/models/user_security.py and of the
inline sha256 hexdigest computations in the services: a deterministic one-way
digest whose collision resistance is modelled as injectivity. -/
def hash_token (t : String) : String := String.append "sha256:" t

theorem hash_token_injective : Function.Injective hash_token := by
  intro a b h
  have h2 := congrArg String.data h
  simp only [hash_token, String.data_append] at h2
  exact String.ext (List.append_cancel_left h2)

/-- Model of the slow password hash behind user.set_password and
authenticate in Django; collision resistance modelled as injectivity. -/
def pw_hash (p : String) : String := String.append "pbkdf2:" p

theorem pw_hash_injective : Function.Injective pw_hash := by
  intro a b h
  have h2 := congrArg String.data h
  simp only [pw_hash, String.data_append] at h2
  exact String.ext (List.append_cancel_left h2)

/-- Exception taxonomy of src/core/exceptions/base.py, one constructor per
ServiceException subclass that the embedded services raise. -/
inductive Exc where
  | invalidToken
  | authenticationRequired
  | authenticationFailed
  | permissionDenied
  | inactiveUser
  | resourceNotFound
  | operationNotAllowed
  | internalServer
  | validation
  | externalService
deriving DecidableEq, Repr

/-- Settings default from src/config/settings.py line 210. -/
def PASSWORD_RESET_EXPIRY_HOURS : Nat := 1

/-- Settings default from src/config/settings.py line 209. -/
def EMAIL_VERIFICATION_EXPIRY_HOURS : Nat := 24

/-- Seconds in one hour, for datetime.timedelta(hours=h). -/
def hoursToSeconds (h : Nat) : Nat := h * 3600

/-- Account row from src/accounts/models/user.py, restricted to the fields
the authentication services read or write. -/
structure User where
  id : Nat
  email : String
  username : String
  password_hash : Option String
  is_verified : Bool
  is_active : Bool
deriving DecidableEq, Repr

/-- UserSecurity row from src/accounts/models/user_security.py. -/
structure UserSecurity where
  login_type : String
  forgot_password_token : Option String
  forgot_password_expiry : Option Nat
  email_verification_token : Option String
  email_verification_expiry : Option Nat
  is_2fa_enabled : Bool
  totp_secret : Option String
deriving DecidableEq, Repr

/-- Fresh UserSecurity row with model-field defaults
(login_type default LOGIN_EMAIL_PASSWORD, tokens null, 2fa off). -/
def UserSecurity.empty : UserSecurity :=
  { login_type := "email_password"
    forgot_password_token := none
    forgot_password_expiry := none
    email_verification_token := none
    email_verification_expiry := none
    is_2fa_enabled := false
    totp_secret := none }

/-- UserSecurity.generate_forgot_password: draws raw (secrets.token_urlsafe,
passed in), stores its hash and expiry now + PASSWORD_RESET_EXPIRY_HOURS,
returns the raw value. -/
def UserSecurity.generate_forgot_password (s : UserSecurity) (now : Nat)
    (raw : String) : String × UserSecurity :=
  (raw,
   { s with
       forgot_password_token := some (hash_token raw)
       forgot_password_expiry :=
         some (now + hoursToSeconds PASSWORD_RESET_EXPIRY_HOURS) })

/-- UserSecurity.generate_email_verification_token: same shape with the
email-verification slot and EMAIL_VERIFICATION_EXPIRY_HOURS. -/
def UserSecurity.generate_email_verification_token (s : UserSecurity)
    (now : Nat) (raw : String) : String × UserSecurity :=
  (raw,
   { s with
       email_verification_token := some (hash_token raw)
       email_verification_expiry :=
         some (now + hoursToSeconds EMAIL_VERIFICATION_EXPIRY_HOURS) })

/-- UserSecurity.verify_forgot_password_token: false on a missing token,
missing expiry, or now strictly past expiry; otherwise compares digests. -/
def UserSecurity.verify_forgot_password_token (s : UserSecurity) (now : Nat)
    (token : String) : Bool :=
  match s.forgot_password_token, s.forgot_password_expiry with
  | none, _ => false
  | some _, none => false
  | some stored, some expiry =>
      if now > expiry then false else hash_token token == stored

/-- UserSecurity.verify_email_verification_token, same shape on the
email-verification slot. -/
def UserSecurity.verify_email_verification_token (s : UserSecurity)
    (now : Nat) (token : String) : Bool :=
  match s.email_verification_token, s.email_verification_expiry with
  | none, _ => false
  | some _, none => false
  | some stored, some expiry =>
      if now > expiry then false else hash_token token == stored

/-- UserSecurity.clear_forgot_password_token: nulls hash and expiry. -/
def UserSecurity.clear_forgot_password_token (s : UserSecurity) :
    UserSecurity :=
  { s with forgot_password_token := none, forgot_password_expiry := none }

/-- UserSecurity.clear_email_verification_token: nulls hash and expiry. -/
def UserSecurity.clear_email_verification_token (s : UserSecurity) :
    UserSecurity :=
  { s with
      email_verification_token := none
      email_verification_expiry := none }

/-- A TOTP code as produced by an authenticator app: a 6-digit string
derived from the shared secret and the 30-second time step. The derivation
(pyotp.TOTP.at) is modelled as the pair itself, which encodes the standard
assumption that codes of distinct secrets or distant steps do not collide. -/
structure TotpCode where
  secret : String
  step : Int
deriving DecidableEq, Repr

/-- The code an authenticator app shows for a secret at a time step. -/
def totp_code (secret : String) (step : Int) : TotpCode :=
  { secret := secret, step := step }

/-- UserSecurity.generate_totp_secret: draws a fresh base32 secret
(pyotp.random_base32, passed in), persists it, returns it. -/
def UserSecurity.generate_totp_secret (s : UserSecurity) (fresh : String) :
    String × UserSecurity :=
  (fresh, { s with totp_secret := some fresh })

/-- UserSecurity.verify_totp: false with no stored secret; otherwise
pyotp.TOTP(secret).verify(token, valid_window=1), true exactly when the
code was derived from the stored secret at a step within one time step of
the current one. -/
def UserSecurity.verify_totp (s : UserSecurity) (nowStep : Int)
    (code : TotpCode) : Bool :=
  match s.totp_secret with
  | none => false
  | some secret => code.secret == secret && (code.step - nowStep).natAbs ≤ 1

/-- Claims of a simplejwt token as the embedded services use them:
token_type is the class-level type claim simplejwt itself validates,
typ is the custom claim written as token["type"] by the login service,
exp is the expiry in seconds. -/
structure Jwt where
  token_type : String
  typ : Option String
  user_id : Nat
  exp : Nat
deriving DecidableEq, Repr

/-- ACCESS_TOKEN_LIFETIME from src/config/settings.py: one day. -/
def ACCESS_TOKEN_LIFETIME : Nat := 86400

/-- REFRESH_TOKEN_LIFETIME from src/config/settings.py: thirty days. -/
def REFRESH_TOKEN_LIFETIME : Nat := 30 * 86400

/-- simplejwt AccessToken.for_user with this project settings. -/
def accessTokenForUser (now : Nat) (u : User) : Jwt :=
  { token_type := "access"
    typ := none
    user_id := u.id
    exp := now + ACCESS_TOKEN_LIFETIME }

/-- simplejwt RefreshToken.for_user with this project settings. -/
def refreshTokenForUser (now : Nat) (u : User) : Jwt :=
  { token_type := "refresh"
    typ := none
    user_id := u.id
    exp := now + REFRESH_TOKEN_LIFETIME }

/-- Serialized form str(token) of a JWT; injectivity models signature
integrity of the encoded claims. -/
def Jwt.encode (t : Jwt) : String :=
  String.intercalate "."
    [t.token_type, (t.typ).getD "-", toString t.user_id, toString t.exp]

/-- LoginService._generate_tokens and accounts.helpers.generate_tokens
(src/accounts/helpers/token.py lines 14 to 22): a Python dict with the
encoded access and refresh tokens under the keys access and refresh,
in that insertion order. -/
def generate_tokens (now : Nat) (u : User) : List (String × String) :=
  [("access", (accessTokenForUser now u).encode),
   ("refresh", (refreshTokenForUser now u).encode)]

/-- LoginService._generate_2fa_token (src/accounts/services/auth/
login_service.py lines 172 to 183): an AccessToken for the user, with the
custom claim type set to 2fa and the expiry shortened to five minutes. -/
def generate_2fa_token (now : Nat) (u : User) : Jwt :=
  { accessTokenForUser now u with typ := some "2fa", exp := now + 5 * 60 }

/-- One token class of SIMPLE_JWT AUTH_TOKEN_CLASSES accepts a presented
token when the class-level type claim matches and the token is unexpired;
src/config/settings.py line 148 registers AccessToken and TwoFAToken. -/
def tokenClassAccepts (clsType : String) (now : Nat) (t : Jwt) : Bool :=
  t.token_type == clsType && now < t.exp

/-- rest_framework_simplejwt JWTAuthentication.get_validated_token under
this project settings: the token validates when either registered token
class accepts it. -/
def jwtAuthenticates (now : Nat) (t : Jwt) : Bool :=
  tokenClassAccepts "access" now t || tokenClassAccepts "2fa" now t

/-- rest_framework.permissions.IsAuthenticated over JWTAuthentication,
the permission gate of every authenticated non-step-up endpoint
(src/accounts/views, for example two_factor.py line 39 and user.py
line 37): it passes exactly when the bearer token validates. -/
def isAuthenticatedPermits (now : Nat) (t : Option Jwt) : Bool :=
  match t with
  | none => false
  | some tok => jwtAuthenticates now tok

/-- Is2FAToken.has_permission (src/accounts/permissions.py lines 19 to 52),
the gate of the step-up verification endpoint: the token must validate and
its custom type claim must equal 2fa. -/
def is2FATokenPermits (now : Nat) (t : Option Jwt) : Bool :=
  match t with
  | none => false
  | some tok => jwtAuthenticates now tok && tok.typ == some "2fa"

/-- django.contrib.auth.authenticate with the default ModelBackend (the
project sets no AUTHENTICATION_BACKENDS and USERNAME_FIELD is email):
resolve the account by exact email, check the slow password hash, and
reject inactive users inside user_can_authenticate, returning None on any
failure. An account without a usable password never authenticates. -/
def djangoAuthenticate (u : User) (email password : String) : Option User :=
  if u.email == email then
    match u.password_hash with
    | some stored =>
        if stored == pw_hash password && u.is_active then some u else none
    | none => none
  else none

/-- Outcome of LoginService.login_user on success: either the 2FA step-up
dictionary with no session tokens, or the session-token dictionary. -/
inductive LoginResult where
  | requires2fa (user : User) (temp_token : Jwt)
  | session (user : User) (tokens : List (String × String))
deriving DecidableEq, Repr

/-- LoginService.login_user (src/accounts/services/auth/login_service.py
lines 57 to 150): authenticate, then the is_active gate, then the
is_verified gate raising InvalidTokenException, then the 2FA branch
returning a temp token, otherwise a full session. -/
def login_user (now : Nat) (u : User) (security : UserSecurity)
    (email password : String) : Except Exc LoginResult :=
  match djangoAuthenticate u email password with
  | none => .error .authenticationRequired
  | some user =>
      if !user.is_active then .error .inactiveUser
      else if !user.is_verified then .error .invalidToken
      else if security.is_2fa_enabled then
        .ok (.requires2fa user (generate_2fa_token now user))
      else
        .ok (.session user (generate_tokens now user))

/-- One account with its one-to-one security row, the unit of state the
per-account services read and write. -/
structure AccountState where
  user : User
  security : UserSecurity
deriving DecidableEq, Repr

/-- ORM filter used by ResetPasswordService (reset_password_service.py
lines 81 to 89): the stored forgot-password hash equals the presented
digest and the expiry is strictly in the future. -/
def matchesResetFilter (st : AccountState) (now : Nat) (hashed : String) :
    Bool :=
  st.security.forgot_password_token == some hashed &&
    match st.security.forgot_password_expiry with
    | some expiry => now < expiry
    | none => false

/-- ORM filter used by VerifyEmailService (verify_email_service.py lines
76 to 84), same shape on the email-verification slot. -/
def matchesVerifyFilter (st : AccountState) (now : Nat) (hashed : String) :
    Bool :=
  st.security.email_verification_token == some hashed &&
    match st.security.email_verification_expiry with
    | some expiry => now < expiry
    | none => false

/-- ResetPasswordService.reset_password (src/accounts/services/auth/
reset_password_service.py lines 53 to 135): hash the token, find a
matching unexpired secret or raise InvalidTokenException, validate the new
password policy (django validate_password, passed in as policyOk), then in
one transaction set the password and null the secret. failInside injects a
failure inside the atomic block: the block rolls back, the pre-state is
kept, and the service raises InternalServerException. The service performs
no is_active check. -/
def reset_password (now : Nat) (token new_password : String)
    (policyOk : String → Bool) (failInside : Bool) (st : AccountState) :
    Except Exc User × AccountState :=
  let hashed := hash_token token
  if matchesResetFilter st now hashed then
    if policyOk new_password then
      if failInside then (.error .internalServer, st)
      else
        let user2 := { st.user with password_hash := some (pw_hash new_password) }
        let sec2 := st.security.clear_forgot_password_token
        (.ok user2, { user := user2, security := sec2 })
    else (.error .validation, st)
  else (.error .invalidToken, st)

/-- VerifyEmailService.verify_email (src/accounts/services/auth/
verify_email_service.py lines 50 to 111): hash the token, find a matching
unexpired secret or raise InvalidTokenException, raise
OperationNotAllowedException when the user is already verified, then in
one transaction set is_verified and null the secret. failInside injects a
failure inside the atomic block, which rolls back and propagates. -/
def verify_email (now : Nat) (token : String) (failInside : Bool)
    (st : AccountState) : Except Exc AccountState × AccountState :=
  let hashed := hash_token token
  if matchesVerifyFilter st now hashed then
    if st.user.is_verified then (.error .operationNotAllowed, st)
    else if failInside then (.error .internalServer, st)
    else
      let user2 := { st.user with is_verified := true }
      let sec2 := st.security.clear_email_verification_token
      let st2 : AccountState := { user := user2, security := sec2 }
      (.ok st2, st2)
  else (.error .invalidToken, st)

/-- Result of a flow together with its observable notifier effect: whether
the out-of-band email reached the notifier, and whether a warning was
logged instead. -/
structure FlowOutcome (α : Type) where
  result : Except Exc α
  emailDelivered : Bool
  warningLogged : Bool
deriving Repr

/-- RegisterService.register_user (src/accounts/services/auth/
register_service.py lines 55 to 116): in one transaction create the user
(unverified, active, password hashed) and the email-verification secret;
after commit try to send the verification email and, when sending fails,
only log a warning (lines 93 to 102). The raw secret and the new id are
passed in for the drawn randomness and the store-assigned key. -/
def register_user (now : Nat) (newId : Nat) (email username password : String)
    (raw_token : String) (emailFails : Bool) : FlowOutcome AccountState :=
  let user : User :=
    { id := newId
      email := email
      username := username
      password_hash := some (pw_hash password)
      is_verified := false
      is_active := true }
  let security :=
    { UserSecurity.empty with
        email_verification_token := some (hash_token raw_token)
        email_verification_expiry :=
          some (now + hoursToSeconds EMAIL_VERIFICATION_EXPIRY_HOURS) }
  { result := .ok { user := user, security := security }
    emailDelivered := !emailFails
    warningLogged := emailFails }

/-- ForgotPasswordService.send_reset_email (src/accounts/services/auth/
forgot_password_service.py lines 58 to 126). The account lookup by email
silently returns on a miss. On a hit the secret is generated and committed
in an atomic block, and the reset email is sent after the block but still
inside the try whose handler raises InternalServerException, so a failing
dispatch fails the call while the committed secret stands. -/
def send_reset_email (now : Nat) (email : String) (raw : String)
    (emailFails : Bool) (db : Option AccountState) :
    Except Exc Unit × Option AccountState :=
  match db with
  | none => (.ok (), none)
  | some st =>
      if st.user.email == email then
        let sec2 := (st.security.generate_forgot_password now raw).2
        let st2 : AccountState := { st with security := sec2 }
        if emailFails then (.error .internalServer, some st2)
        else (.ok (), some st2)
      else (.ok (), some st)

/-- ResendEmailSerializer.validate_email (src/accounts/serializers/auth/
auth.py lines 170 to 188): an unknown email fails with the message that no
account was found; an already verified account fails with its own message;
otherwise the resolved account is attached for the service. -/
def resendValidateEmail (db : Option AccountState) (email : String) :
    Except String AccountState :=
  match db with
  | none => .error "No account found with this email."
  | some st =>
      if st.user.email == email then
        if st.user.is_verified then .error "Email is already verified."
        else .ok st
      else .error "No account found with this email."

/-- TwoFactorService.setup_2fa (src/accounts/services/auth/
two_factor_service.py lines 26 to 53): refuse when 2FA is already enabled,
otherwise generate and persist a fresh TOTP secret and return it. -/
def setup_2fa (fresh : String) (st : UserSecurity) :
    Except Exc (String × UserSecurity) :=
  if st.is_2fa_enabled then .error .validation
  else .ok (st.generate_totp_secret fresh)

/-- TwoFactorService.enable_2fa (two_factor_service.py lines 55 to 87):
refuse when already enabled, raise AuthenticationFailedException on an
invalid TOTP code, otherwise atomically set is_2fa_enabled. -/
def enable_2fa (nowStep : Int) (code : TotpCode) (st : UserSecurity) :
    Except Exc UserSecurity :=
  if st.is_2fa_enabled then .error .validation
  else if !(st.verify_totp nowStep code) then .error .authenticationFailed
  else .ok { st with is_2fa_enabled := true }

/-- TwoFactorService.disable_2fa (two_factor_service.py lines 89 to 122):
requires enabled and a valid code, then clears the flag and the secret. -/
def disable_2fa (nowStep : Int) (code : TotpCode) (st : UserSecurity) :
    Except Exc UserSecurity :=
  if !st.is_2fa_enabled then .error .validation
  else if !(st.verify_totp nowStep code) then .error .authenticationFailed
  else .ok { st with is_2fa_enabled := false, totp_secret := none }

/-- Python tuple unpacking a, b = d applied to a dict d iterates the dict,
which yields its KEYS in insertion order; it succeeds exactly on a
two-entry dict and binds the two key strings. -/
def dictUnpack2 (d : List (String × String)) : Option (String × String) :=
  match d with
  | [(k1, _), (k2, _)] => some (k1, k2)
  | _ => none

/-- Body of the token-endpoint response of the Google code exchange, as far
as the service reads it. -/
structure GoogleTokenResponse where
  access_token : Option String
deriving DecidableEq, Repr

/-- Body of the Google userinfo response, as far as the service reads it. -/
structure GoogleUserInfo where
  email : Option String
  name : Option String
deriving DecidableEq, Repr

/-- urllib.parse.urlencode on string pairs whose values need no escaping. -/
def urlencode (ps : List (String × String)) : String :=
  String.intercalate "&" (ps.map (fun p => p.1 ++ "=" ++ p.2))

/-- Concrete field names of the User model (src/accounts/models/user.py
plus the BaseModel and AbstractBaseUser columns it inherits). The model
declares no login_type column; that column lives on UserSecurity. -/
def userModelFields : List String :=
  ["id", "is_active", "created_at", "updated_at", "deleted_at",
   "password", "last_login", "is_superuser",
   "email", "username", "avatar", "role", "is_verified", "is_staff"]

/-- Steps 5 and 6 of GoogleOAuthService.handle_callback (oauth_service.py
lines 120 to 134) in isolation: generate_tokens builds the session dict,
the statement access_jwt, refresh_jwt = generate_tokens(user) tuple-unpacks
that dict, and the redirect URL is built from the two bound names. -/
def oauthSessionRedirect (now : Nat) (u : User) (frontend_url : String) :
    Except Exc String :=
  let tokens := generate_tokens now u
  match dictUnpack2 tokens with
  | none => .error .internalServer
  | some (access_jwt, refresh_jwt) =>
      .ok (frontend_url ++ "/google/callback?" ++
        urlencode [("access", access_jwt), ("refresh", refresh_jwt)])

/-- GoogleOAuthService.handle_callback (src/accounts/services/auth/
oauth_service.py lines 61 to 138), with the two outbound HTTP responses
passed in. A missing access token raises ServiceException and a missing
email raises ValidationException, but the blanket handler at line 136
converts every exception to InternalServerException. Step 3 references the
column login_type on User in both branches: get_or_create passes it in
defaults, which the model constructor rejects, and the update branch lists
it in update_fields, which save rejects, so either branch raises inside
the atomic block, the transaction rolls back, and the handler returns
InternalServerException; the session and redirect steps are unreachable.
db is the optional existing account with the resolved email; newId is the
store-assigned key on a create. -/
def google_handle_callback (now : Nat) (tokenRes : GoogleTokenResponse)
    (userInfo : GoogleUserInfo) (frontend_url : String) (newId : Nat)
    (db : Option AccountState) : Except Exc String × Option AccountState :=
  match tokenRes.access_token with
  | none => (.error .internalServer, db)
  | some _ =>
      match userInfo.email with
      | none => (.error .internalServer, db)
      | some email =>
          let username := (userInfo.name).getD
            (String.takeWhile email (fun c => c != Char.ofNat 64))
          if "login_type" ∈ userModelFields then
            let st2 : AccountState :=
              match db with
              | some st =>
                  { st with user :=
                      { st.user with
                          username := username
                          is_verified := true } }
              | none =>
                  { user :=
                      { id := newId
                        email := email
                        username := username
                        password_hash := none
                        is_verified := true
                        is_active := true }
                    security := UserSecurity.empty }
            match oauthSessionRedirect now st2.user frontend_url with
            | .error e => (.error e, some st2)
            | .ok url => (.ok url, some st2)
          else
            (.error .internalServer, db)

/-- One event of the pending-secret lifecycle of a single account, per
kind: a generate (registration, forgot-password, resend) drawing the raw
value at a wall-clock time, or the clear performed by the consuming
action (reset-password, verify-email). -/
inductive SecretOp where
  | genFP (now : Nat) (raw : String)
  | clearFP
  | genEV (now : Nat) (raw : String)
  | clearEV
deriving DecidableEq, Repr

/-- Apply one lifecycle event through the UserSecurity methods of
src/accounts/models/user_security.py. -/
def applySecretOp (s : UserSecurity) : SecretOp → UserSecurity
  | .genFP now raw => (s.generate_forgot_password now raw).2
  | .clearFP => s.clear_forgot_password_token
  | .genEV now raw => (s.generate_email_verification_token now raw).2
  | .clearEV => s.clear_email_verification_token

/-- Run a lifecycle history oldest first. -/
def runSecretOps (s : UserSecurity) (ops : List SecretOp) : UserSecurity :=
  ops.foldl applySecretOp s

/-- Step of the live forgot-password generate of a history. -/
def fpStep (acc : Option (Nat × String)) : SecretOp → Option (Nat × String)
  | .genFP now raw => some (now, raw)
  | .clearFP => none
  | _ => acc

/-- Step of the live email-verification generate of a history. -/
def evStep (acc : Option (Nat × String)) : SecretOp → Option (Nat × String)
  | .genEV now raw => some (now, raw)
  | .clearEV => none
  | _ => acc

/-- The live forgot-password generate of a history: the last genFP not
followed by a clearFP, with its time, or none. -/
def activeGenFP (ops : List SecretOp) : Option (Nat × String) :=
  ops.foldl fpStep none

/-- The live email-verification generate of a history. -/
def activeGenEV (ops : List SecretOp) : Option (Nat × String) :=
  ops.foldl evStep none

/-- Map from the live generate of the forgot-password slot to the stored
hash column. -/
def fpHashOf (acc : Option (Nat × String)) : Option String :=
  acc.map (fun p => hash_token p.2)

/-- Map from the live generate of the forgot-password slot to the stored
expiry column. -/
def fpExpiryOf (acc : Option (Nat × String)) : Option Nat :=
  acc.map (fun p => p.1 + hoursToSeconds PASSWORD_RESET_EXPIRY_HOURS)

/-- Map from the live generate of the email-verification slot to the
stored hash column. -/
def evHashOf (acc : Option (Nat × String)) : Option String :=
  acc.map (fun p => hash_token p.2)

/-- Map from the live generate of the email-verification slot to the
stored expiry column. -/
def evExpiryOf (acc : Option (Nat × String)) : Option Nat :=
  acc.map (fun p => p.1 + hoursToSeconds EMAIL_VERIFICATION_EXPIRY_HOURS)

theorem fp_fold_spec (ops : List SecretOp) :
    ∀ (s : UserSecurity) (acc : Option (Nat × String)),
      s.forgot_password_token = fpHashOf acc →
      s.forgot_password_expiry = fpExpiryOf acc →
      (List.foldl applySecretOp s ops).forgot_password_token
          = fpHashOf (List.foldl fpStep acc ops)
        ∧ (List.foldl applySecretOp s ops).forgot_password_expiry
          = fpExpiryOf (List.foldl fpStep acc ops) := by
  induction ops with
  | nil => intro s acc h1 h2; exact ⟨h1, h2⟩
  | cons op rest ih =>
      intro s acc h1 h2
      cases op with
      | genFP now raw =>
          exact ih _ _ (by simp [applySecretOp, fpStep, fpHashOf,
              UserSecurity.generate_forgot_password])
            (by simp [applySecretOp, fpStep, fpExpiryOf,
              UserSecurity.generate_forgot_password])
      | clearFP =>
          exact ih _ _ (by simp [applySecretOp, fpStep, fpHashOf,
              UserSecurity.clear_forgot_password_token])
            (by simp [applySecretOp, fpStep, fpExpiryOf,
              UserSecurity.clear_forgot_password_token])
      | genEV now raw =>
          exact ih _ _ (by simpa [applySecretOp, fpStep,
              UserSecurity.generate_email_verification_token] using h1)
            (by simpa [applySecretOp, fpStep,
              UserSecurity.generate_email_verification_token] using h2)
      | clearEV =>
          exact ih _ _ (by simpa [applySecretOp, fpStep,
              UserSecurity.clear_email_verification_token] using h1)
            (by simpa [applySecretOp, fpStep,
              UserSecurity.clear_email_verification_token] using h2)

theorem ev_fold_spec (ops : List SecretOp) :
    ∀ (s : UserSecurity) (acc : Option (Nat × String)),
      s.email_verification_token = evHashOf acc →
      s.email_verification_expiry = evExpiryOf acc →
      (List.foldl applySecretOp s ops).email_verification_token
          = evHashOf (List.foldl evStep acc ops)
        ∧ (List.foldl applySecretOp s ops).email_verification_expiry
          = evExpiryOf (List.foldl evStep acc ops) := by
  induction ops with
  | nil => intro s acc h1 h2; exact ⟨h1, h2⟩
  | cons op rest ih =>
      intro s acc h1 h2
      cases op with
      | genEV now raw =>
          exact ih _ _ (by simp [applySecretOp, evStep, evHashOf,
              UserSecurity.generate_email_verification_token])
            (by simp [applySecretOp, evStep, evExpiryOf,
              UserSecurity.generate_email_verification_token])
      | clearEV =>
          exact ih _ _ (by simp [applySecretOp, evStep, evHashOf,
              UserSecurity.clear_email_verification_token])
            (by simp [applySecretOp, evStep, evExpiryOf,
              UserSecurity.clear_email_verification_token])
      | genFP now raw =>
          exact ih _ _ (by simpa [applySecretOp, evStep,
              UserSecurity.generate_forgot_password] using h1)
            (by simpa [applySecretOp, evStep,
              UserSecurity.generate_forgot_password] using h2)
      | clearFP =>
          exact ih _ _ (by simpa [applySecretOp, evStep,
              UserSecurity.clear_forgot_password_token] using h1)
            (by simpa [applySecretOp, evStep,
              UserSecurity.clear_forgot_password_token] using h2)

theorem verify_fp_char (s : UserSecurity) (acc : Option (Nat × String))
    (now : Nat) (raw : String)
    (h1 : s.forgot_password_token = fpHashOf acc)
    (h2 : s.forgot_password_expiry = fpExpiryOf acc) :
    s.verify_forgot_password_token now raw = true
      ↔ ∃ t, acc = some (t, raw)
          ∧ now ≤ t + hoursToSeconds PASSWORD_RESET_EXPIRY_HOURS := by
  cases acc with
  | none =>
      simp only [fpHashOf, Option.map_none, fpExpiryOf] at h1 h2
      unfold UserSecurity.verify_forgot_password_token
      rw [h1]
      simp
  | some p =>
      obtain ⟨t, r⟩ := p
      simp only [fpHashOf, Option.map_some, fpExpiryOf] at h1 h2
      unfold UserSecurity.verify_forgot_password_token
      rw [h1, h2]
      simp only [Option.map_some']
      by_cases hlate : now > t + hoursToSeconds PASSWORD_RESET_EXPIRY_HOURS
      · rw [if_pos hlate]
        simp only [Bool.false_eq_true, false_iff, not_exists]
        rintro t2 ⟨heq, hle⟩
        rw [Option.some.injEq, Prod.mk.injEq] at heq
        obtain ⟨ht, _⟩ := heq
        omega
      · rw [if_neg hlate]
        have hle : now ≤ t + hoursToSeconds PASSWORD_RESET_EXPIRY_HOURS :=
          Nat.not_lt.mp hlate
        constructor
        · intro hbeq
          have hraw : raw = r := hash_token_injective (by
            exact beq_iff_eq.mp hbeq)
          exact ⟨t, by rw [hraw], hle⟩
        · rintro ⟨t2, heq, hle2⟩
          rw [Option.some.injEq, Prod.mk.injEq] at heq
          obtain ⟨_, hr⟩ := heq
          rw [hr]
          exact beq_self_eq_true (hash_token raw)

theorem verify_ev_char (s : UserSecurity) (acc : Option (Nat × String))
    (now : Nat) (raw : String)
    (h1 : s.email_verification_token = evHashOf acc)
    (h2 : s.email_verification_expiry = evExpiryOf acc) :
    s.verify_email_verification_token now raw = true
      ↔ ∃ t, acc = some (t, raw)
          ∧ now ≤ t + hoursToSeconds EMAIL_VERIFICATION_EXPIRY_HOURS := by
  cases acc with
  | none =>
      simp only [evHashOf, Option.map_none', evExpiryOf] at h1 h2
      unfold UserSecurity.verify_email_verification_token
      rw [h1]
      simp
  | some p =>
      obtain ⟨t, r⟩ := p
      simp only [evHashOf, Option.map_some', evExpiryOf] at h1 h2
      unfold UserSecurity.verify_email_verification_token
      rw [h1, h2]
      simp only [Option.map_some']
      by_cases hlate : now > t + hoursToSeconds EMAIL_VERIFICATION_EXPIRY_HOURS
      · rw [if_pos hlate]
        simp only [Bool.false_eq_true, false_iff, not_exists]
        rintro t2 ⟨heq, hle⟩
        rw [Option.some.injEq, Prod.mk.injEq] at heq
        obtain ⟨ht, _⟩ := heq
        omega
      · rw [if_neg hlate]
        have hle : now ≤ t + hoursToSeconds EMAIL_VERIFICATION_EXPIRY_HOURS :=
          Nat.not_lt.mp hlate
        constructor
        · intro hbeq
          have hraw : raw = r := hash_token_injective (by
            exact beq_iff_eq.mp hbeq)
          exact ⟨t, by rw [hraw], hle⟩
        · rintro ⟨t2, heq, hle2⟩
          rw [Option.some.injEq, Prod.mk.injEq] at heq
          obtain ⟨_, hr⟩ := heq
          rw [hr]
          exact beq_self_eq_true (hash_token raw)

/-- C2: for every account and every pending-secret kind, verify(raw)
succeeds exactly when raw is the value drawn by the most recent generate
for that kind with no clear after it and the current time is not past the
stored expiry; in particular a later generate overwrites the stored hash,
so the earlier raw value verifies false. -/
theorem c2_verify_iff_most_recent_generate (ops : List SecretOp)
    (raw : String) (now : Nat) :
    ((runSecretOps UserSecurity.empty ops).verify_forgot_password_token
        now raw = true
      ↔ ∃ t, activeGenFP ops = some (t, raw)
          ∧ now ≤ t + hoursToSeconds PASSWORD_RESET_EXPIRY_HOURS)
    ∧ ((runSecretOps UserSecurity.empty ops).verify_email_verification_token
        now raw = true
      ↔ ∃ t, activeGenEV ops = some (t, raw)
          ∧ now ≤ t + hoursToSeconds EMAIL_VERIFICATION_EXPIRY_HOURS)
    ∧ (∀ rawOld t1 t2, rawOld ≠ raw →
        (runSecretOps UserSecurity.empty
            (ops ++ [.genFP t1 rawOld, .genFP t2 raw])).verify_forgot_password_token
          now rawOld = false) := by
  unfold runSecretOps activeGenFP activeGenEV
  obtain ⟨hf1, hf2⟩ := fp_fold_spec ops UserSecurity.empty none rfl rfl
  obtain ⟨he1, he2⟩ := ev_fold_spec ops UserSecurity.empty none rfl rfl
  refine ⟨verify_fp_char _ _ _ _ hf1 hf2, verify_ev_char _ _ _ _ he1 he2, ?_⟩
  intro rawOld t1 t2 hne
  obtain ⟨hg1, hg2⟩ := fp_fold_spec
    (ops ++ [.genFP t1 rawOld, .genFP t2 raw]) UserSecurity.empty none rfl rfl
  have hA : List.foldl fpStep none
      (ops ++ [SecretOp.genFP t1 rawOld, SecretOp.genFP t2 raw])
        = some (t2, raw) := by
    rw [List.foldl_append]
    rfl
  rw [hA] at hg1 hg2
  have hiff := verify_fp_char _ _ now rawOld hg1 hg2
  refine Bool.eq_false_iff.mpr ?_
  intro htrue
  obtain ⟨t0, heq, _⟩ := hiff.mp htrue
  rw [Option.some.injEq, Prod.mk.injEq] at heq
  exact hne heq.2.symm

/-- Witness for the corrected-history clause of C2 at concrete inputs:
after generating raw a and then raw b, verifying a fails while b still
verifies inside the expiry window. -/
theorem c2_verify_iff_most_recent_generate_witness :
    (runSecretOps UserSecurity.empty
        [.genFP 0 "a", .genFP 10 "b"]).verify_forgot_password_token 20 "a"
      = false
    ∧ (runSecretOps UserSecurity.empty
        [.genFP 0 "a", .genFP 10 "b"]).verify_forgot_password_token 20 "b"
      = true := by
  constructor
  · exact (c2_verify_iff_most_recent_generate [] "b" 20).2.2 "a" 0 10
      (by decide)
  · exact ((c2_verify_iff_most_recent_generate
        [SecretOp.genFP 0 "a", SecretOp.genFP 10 "b"] "b" 20).1).mpr
      ⟨10, by decide⟩

/-- C3: ResetPassword and VerifyEmail perform the state change and the
secret clearing in one transaction: a failure injected between the two
writes rolls the whole state back; on success the state change and the
clearing both took effect, so a second call with the same raw token finds
no matching secret and fails with the invalid-or-expired-token error; and
VerifyEmail on an already verified account fails with a hard
operation-not-allowed error instead of succeeding idempotently. -/
theorem c3_atomic_consume (now later : Nat) (token new_password : String)
    (policyOk : String → Bool) (st : AccountState) :
    ((reset_password now token new_password policyOk true st).2 = st
      ∧ (verify_email now token true st).2 = st)
    ∧ (∀ res st2,
        reset_password now token new_password policyOk false st
            = (.ok res, st2) →
          st2.user.password_hash = some (pw_hash new_password)
          ∧ st2.security.forgot_password_token = none
          ∧ st2.security.forgot_password_expiry = none
          ∧ (reset_password later token new_password policyOk false st2).1
              = .error .invalidToken)
    ∧ (∀ res st2,
        verify_email now token false st = (.ok res, st2) →
          st2.user.is_verified = true
          ∧ st2.security.email_verification_token = none
          ∧ st2.security.email_verification_expiry = none
          ∧ (verify_email later token false st2).1 = .error .invalidToken)
    ∧ (st.user.is_verified = true →
        matchesVerifyFilter st now (hash_token token) = true →
          (verify_email now token false st).1 = .error .operationNotAllowed) := by
  refine ⟨⟨?_, ?_⟩, ?_, ?_, ?_⟩
  · by_cases hm : matchesResetFilter st now (hash_token token) = true
    · by_cases hp : policyOk new_password = true
      · simp [reset_password, hm, hp]
      · simp [reset_password, hm, hp]
    · simp [reset_password, hm]
  · by_cases hm : matchesVerifyFilter st now (hash_token token) = true
    · by_cases hv : st.user.is_verified = true
      · simp [verify_email, hm, hv]
      · simp [verify_email, hm, hv]
    · simp [verify_email, hm]
  · intro res st2 hok
    by_cases hm : matchesResetFilter st now (hash_token token) = true
    · by_cases hp : policyOk new_password = true
      · simp [reset_password, hm, hp] at hok
        obtain ⟨-, h2⟩ := hok
        subst h2
        refine ⟨rfl, rfl, rfl, ?_⟩
        simp [reset_password, matchesResetFilter,
          UserSecurity.clear_forgot_password_token]
      · simp [reset_password, hm, hp] at hok
    · simp [reset_password, hm] at hok
  · intro res st2 hok
    by_cases hm : matchesVerifyFilter st now (hash_token token) = true
    · by_cases hv : st.user.is_verified = true
      · simp [verify_email, hm, hv] at hok
      · simp [verify_email, hm, hv] at hok
        obtain ⟨-, h2⟩ := hok
        subst h2
        refine ⟨rfl, rfl, rfl, ?_⟩
        simp [verify_email, matchesVerifyFilter,
          UserSecurity.clear_email_verification_token]
    · simp [verify_email, hm] at hok
  · intro hv hm
    simp [verify_email, hm, hv]

/-- Concrete unverified account with live reset and verification secrets,
used by witnesses. -/
def stDemo : AccountState :=
  { user :=
      { id := 1
        email := "a@x.com"
        username := "alice"
        password_hash := some (pw_hash "OldPw")
        is_verified := false
        is_active := true }
    security :=
      { UserSecurity.empty with
          forgot_password_token := some (hash_token "tok")
          forgot_password_expiry := some 100
          email_verification_token := some (hash_token "evt")
          email_verification_expiry := some 100 } }

/-- The same account already verified, used by witnesses. -/
def stDemoVerified : AccountState :=
  { stDemo with user := { stDemo.user with is_verified := true } }

/-- Witness for C3 at concrete inputs: a second reset with the consumed
token fails invalid-token, and verifying an already verified account fails
operation-not-allowed. -/
theorem c3_atomic_consume_witness :
    ((reset_password 50 "tok" "NewPw" (fun _ => true) false
        ((reset_password 10 "tok" "NewPw" (fun _ => true) false stDemo).2)).1
      = .error .invalidToken)
    ∧ (verify_email 10 "evt" false stDemoVerified).1
      = .error .operationNotAllowed := by
  constructor
  · exact ((c3_atomic_consume 10 50 "tok" "NewPw" (fun _ => true)
      stDemo).2.1 _ _ rfl).2.2.2
  · exact (c3_atomic_consume 10 50 "evt" "x" (fun _ => true)
      stDemoVerified).2.2.2 rfl (by decide)

/-- C10: when the reset token matches an unexpired pending secret but the
new password fails policy validation, the call returns the validation
error with the state exactly as before, and the same raw token still
resets the password in a later attempt that passes policy while the
secret is unexpired. -/
theorem c10_policy_failure_preserves_state (now : Nat)
    (token new_password : String) (policyOk : String → Bool)
    (st : AccountState)
    (hm : matchesResetFilter st now (hash_token token) = true)
    (hp : policyOk new_password = false) :
    reset_password now token new_password policyOk false st
        = (.error .validation, st)
    ∧ (∀ later newPw2,
        matchesResetFilter st later (hash_token token) = true →
        policyOk newPw2 = true →
          ∃ u2 st2,
            reset_password later token newPw2 policyOk false st
              = (.ok u2, st2)) := by
  constructor
  · simp [reset_password, hm, hp]
  · intro later newPw2 hm2 hp2
    refine ⟨{ st.user with password_hash := some (pw_hash newPw2) },
      { user := { st.user with password_hash := some (pw_hash newPw2) },
        security := st.security.clear_forgot_password_token }, ?_⟩
    simp [reset_password, hm2, hp2]

/-- Witness for C10 at concrete inputs: a policy-failing reset leaves the
account untouched and the token still works afterwards. -/
theorem c10_policy_failure_preserves_state_witness :
    reset_password 10 "tok" "bad" (fun p => p == "GoodPw") false stDemo
        = (.error .validation, stDemo)
    ∧ ∃ u2 st2,
        reset_password 20 "tok" "GoodPw" (fun p => p == "GoodPw") false stDemo
          = (.ok u2, st2) := by
  have A := c10_policy_failure_preserves_state 10 "tok" "bad"
    (fun p => p == "GoodPw") stDemo (by decide) (by decide)
  exact ⟨A.1, A.2 20 "GoodPw" (by decide) (by decide)⟩

/-- The demo account deactivated, with its live secrets kept. -/
def stDemoInactive : AccountState :=
  { stDemo with user := { stDemo.user with is_active := false } }

/-- C6 counterexample: the claim says ResetPassword re-checks that the
owning account is active and fails on an inactive one leaving password and
secret unchanged; on the code, with a matching unexpired token and an
inactive account, the call succeeds, the password hash changes and the
secret is cleared. -/
theorem c6_counterexample :
    stDemoInactive.user.is_active = false
    ∧ (reset_password 10 "tok" "NewPw" (fun _ => true) false
        stDemoInactive).1
      = .ok { stDemoInactive.user with
                password_hash := some (pw_hash "NewPw") }
    ∧ (reset_password 10 "tok" "NewPw" (fun _ => true) false
        stDemoInactive).2.user.password_hash = some (pw_hash "NewPw")
    ∧ (reset_password 10 "tok" "NewPw" (fun _ => true) false
        stDemoInactive).2.security.forgot_password_token = none := by
  exact ⟨rfl, rfl, rfl, rfl⟩

/-- C6 amended: ResetPassword performs no is_active re-check; with a
matching unexpired secret and a policy-passing password the reset succeeds
and consumes the secret even when the owning account is inactive. -/
theorem c6_no_active_recheck (now : Nat) (token newPw : String)
    (policyOk : String → Bool) (st : AccountState)
    (hm : matchesResetFilter st now (hash_token token) = true)
    (hp : policyOk newPw = true)
    (hinactive : st.user.is_active = false) :
    reset_password now token newPw policyOk false st
      = (.ok { st.user with password_hash := some (pw_hash newPw) },
         { user := { st.user with password_hash := some (pw_hash newPw) },
           security := st.security.clear_forgot_password_token }) := by
  simp [reset_password, hm, hp]

/-- Witness for the amended C6 at the concrete inactive account. -/
theorem c6_no_active_recheck_witness :
    reset_password 10 "tok" "NewPw" (fun _ => true) false stDemoInactive
      = (.ok { stDemoInactive.user with
                 password_hash := some (pw_hash "NewPw") },
         { user := { stDemoInactive.user with
                       password_hash := some (pw_hash "NewPw") },
           security := stDemoInactive.security.clear_forgot_password_token }) :=
  c6_no_active_recheck 10 "tok" "NewPw" (fun _ => true) stDemoInactive
    (by decide) (by decide) (by decide)

/-- A verified but deactivated account holding a correct password, used to
exercise the login gates. -/
def uDemoInactive : User :=
  { id := 3
    email := "i@x.com"
    username := "ina"
    password_hash := some (pw_hash "Pw")
    is_verified := true
    is_active := false }

/-- An active, unverified account holding a correct password. -/
def uDemoUnverified : User :=
  { id := 4
    email := "u@x.com"
    username := "unv"
    password_hash := some (pw_hash "Pw")
    is_verified := false
    is_active := true }

/-- C5 counterexample: with correct credentials, an unverified account
fails login with the same invalid-token code that a bad reset token
produces, not a distinct email-not-verified code; and an inactive account
fails with the credentials code, not an inactive-account code, because the
default Django backend rejects inactive users inside authenticate. -/
theorem c5_counterexample :
    login_user 0 uDemoUnverified UserSecurity.empty "u@x.com" "Pw"
        = .error .invalidToken
    ∧ (reset_password 0 "junk" "NewPw" (fun _ => true) false
        { user := uDemoUnverified, security := UserSecurity.empty }).1
        = .error .invalidToken
    ∧ login_user 0 uDemoInactive UserSecurity.empty "i@x.com" "Pw"
        = .error .authenticationRequired := by
  exact ⟨rfl, rfl, rfl⟩

/-- C5 amended: login gates evaluate in the order credentials, active,
verified, 2FA with the first failing gate deciding, but the credentials
step is Django authenticate with the default backend, which already folds
inactive accounts into the generic credentials failure, so an inactive
account fails AuthenticationFailed and the dedicated inactive branch is
unreachable; an unverified account fails with the invalid-token code;
2FA-enabled accounts get the step-up answer with no session tokens; and
otherwise a full session is issued. -/
theorem c5_login_gate_order (now : Nat) (u : User) (sec : UserSecurity)
    (email password : String) :
    (u.is_active = false →
        login_user now u sec email password = .error .authenticationRequired)
    ∧ (u.email = email → u.password_hash = some (pw_hash password) →
        u.is_active = true → u.is_verified = false →
          login_user now u sec email password = .error .invalidToken)
    ∧ (u.email = email → u.password_hash = some (pw_hash password) →
        u.is_active = true → u.is_verified = true →
        sec.is_2fa_enabled = true →
          login_user now u sec email password
            = .ok (.requires2fa u (generate_2fa_token now u)))
    ∧ (u.email = email → u.password_hash = some (pw_hash password) →
        u.is_active = true → u.is_verified = true →
        sec.is_2fa_enabled = false →
          login_user now u sec email password
            = .ok (.session u (generate_tokens now u)))
    ∧ ((u.email ≠ email ∨ u.password_hash ≠ some (pw_hash password)) →
        login_user now u sec email password
          = .error .authenticationRequired) := by
  refine ⟨?_, ?_, ?_, ?_, ?_⟩
  · intro hina
    by_cases hem : u.email = email
    · cases hph : u.password_hash with
      | none => simp [login_user, djangoAuthenticate, hem, hph]
      | some stored =>
          simp [login_user, djangoAuthenticate, hem, hph, hina]
    · have hbe : (u.email == email) = false := beq_eq_false_iff_ne.mpr hem
      simp [login_user, djangoAuthenticate, hbe]
  · intro hem hph hact hver
    simp [login_user, djangoAuthenticate, hem, hph, hact, hver]
  · intro hem hph hact hver h2
    simp [login_user, djangoAuthenticate, hem, hph, hact, hver, h2]
  · intro hem hph hact hver h2
    simp [login_user, djangoAuthenticate, hem, hph, hact, hver, h2]
  · intro hbad
    by_cases hem : u.email = email
    · cases hph : u.password_hash with
      | none => simp [login_user, djangoAuthenticate, hem, hph]
      | some stored =>
          have hne : stored ≠ pw_hash password := by
            intro hcontra
            rcases hbad with hb | hb
            · exact hb hem
            · exact hb (by rw [hph, hcontra])
          have hbe : (stored == pw_hash password) = false :=
            beq_eq_false_iff_ne.mpr hne
          simp [login_user, djangoAuthenticate, hem, hph, hbe]
    · have hbe : (u.email == email) = false := beq_eq_false_iff_ne.mpr hem
      simp [login_user, djangoAuthenticate, hbe]

/-- Witness for the amended C5 at concrete inputs: the inactive account
fails with the credentials code, and an active verified 2FA-free account
gets a full session. -/
theorem c5_login_gate_order_witness :
    login_user 0 uDemoInactive UserSecurity.empty "i@x.com" "Pw"
        = .error .authenticationRequired
    ∧ login_user 0 stDemoVerified.user UserSecurity.empty "a@x.com" "OldPw"
        = .ok (.session stDemoVerified.user
            (generate_tokens 0 stDemoVerified.user)) := by
  constructor
  · exact (c5_login_gate_order 0 uDemoInactive UserSecurity.empty
      "i@x.com" "Pw").1 rfl
  · exact (c5_login_gate_order 0 stDemoVerified.user UserSecurity.empty
      "a@x.com" "OldPw").2.2.2.1 rfl rfl rfl rfl rfl

/-- C1 counterexample: the step-up token issued at login carries the
type=2fa claim and a five-minute expiry, yet the IsAuthenticated gate of a
non-step-up endpoint accepts it as an ordinary access token while it is
fresh, so it is not rejected by every non-step-up endpoint as the claim
states. -/
theorem c1_counterexample :
    (generate_2fa_token 0 stDemo.user).typ = some "2fa"
    ∧ (generate_2fa_token 0 stDemo.user).exp = 300
    ∧ isAuthenticatedPermits 10 (some (generate_2fa_token 0 stDemo.user))
        = true := by
  exact ⟨rfl, rfl, rfl⟩

/-- C1 amended: the step-up token carries the type=2fa claim and a
five-minute expiry, the step-up endpoint accepts it and accepts only
tokens carrying that claim, and both gates reject it once expired; but a
non-step-up endpoint guarded by IsAuthenticated over JWTAuthentication
accepts the fresh step-up token instead of rejecting it, because the
custom claim is only ever inspected by the step-up permission class. -/
theorem c1_step_up_token_gates (now t : Nat) (u : User)
    (hfresh : t < now + 300) :
    (generate_2fa_token now u).typ = some "2fa"
    ∧ (generate_2fa_token now u).exp = now + 300
    ∧ is2FATokenPermits t (some (generate_2fa_token now u)) = true
    ∧ isAuthenticatedPermits t (some (generate_2fa_token now u)) = true
    ∧ (∀ tk : Jwt, tk.typ = none → is2FATokenPermits t (some tk) = false)
    ∧ (∀ t2, now + 300 ≤ t2 →
        is2FATokenPermits t2 (some (generate_2fa_token now u)) = false
        ∧ isAuthenticatedPermits t2 (some (generate_2fa_token now u))
            = false) := by
  refine ⟨rfl, rfl, ?_, ?_, ?_, ?_⟩
  · simp [is2FATokenPermits, jwtAuthenticates, tokenClassAccepts,
      generate_2fa_token, accessTokenForUser, hfresh]
  · simp [isAuthenticatedPermits, jwtAuthenticates, tokenClassAccepts,
      generate_2fa_token, accessTokenForUser, hfresh]
  · intro tk htyp
    simp [is2FATokenPermits, htyp]
  · intro t2 hexp
    constructor
    · simp [is2FATokenPermits, jwtAuthenticates, tokenClassAccepts,
        generate_2fa_token, accessTokenForUser, Nat.not_lt.mpr hexp]
    · simp [isAuthenticatedPermits, jwtAuthenticates, tokenClassAccepts,
        generate_2fa_token, accessTokenForUser, Nat.not_lt.mpr hexp]

/-- Witness for the amended C1 at concrete inputs. -/
theorem c1_step_up_token_gates_witness :
    is2FATokenPermits 10 (some (generate_2fa_token 0 stDemo.user)) = true
    ∧ isAuthenticatedPermits 10 (some (generate_2fa_token 0 stDemo.user))
        = true
    ∧ isAuthenticatedPermits 301 (some (generate_2fa_token 0 stDemo.user))
        = false := by
  have A := c1_step_up_token_gates 0 10 stDemo.user (by decide)
  exact ⟨A.2.2.1, A.2.2.2.1, (A.2.2.2.2.2 301 (by decide)).2⟩

/-- C4 counterexample: an email dispatch failure after the forgot-password
secret committed does leave the commit in place, but it makes the call
itself fail with the internal-server error rather than being swallowed, so
the claim that the operation never fails is false. -/
theorem c4_counterexample :
    (send_reset_email 10 "a@x.com" "raw" true (some stDemo)).1
        = .error .internalServer
    ∧ (send_reset_email 10 "a@x.com" "raw" true
        (some stDemo)).2.map (fun st => st.security.forgot_password_token)
        = some (some (hash_token "raw")) := by
  exact ⟨rfl, rfl⟩

/-- C4 amended: registration swallows a verification-email failure, only
logging a warning while the committed account and secret stand; the
forgot-password flow likewise never rolls back its committed secret on a
dispatch failure, but there the exception escapes as the internal-server
error, so that call fails even though its durable effect stands. -/
theorem c4_email_failure_isolation (now newId : Nat)
    (email username password raw : String) :
    ((register_user now newId email username password raw true).result
        = (register_user now newId email username password raw false).result
      ∧ (register_user now newId email username password raw
          true).warningLogged = true
      ∧ (register_user now newId email username password raw
          true).emailDelivered = false)
    ∧ (∀ st : AccountState, st.user.email = email →
        (send_reset_email now email raw true (some st)).1
            = .error .internalServer
        ∧ (send_reset_email now email raw true (some st)).2
            = some { st with
                security := (st.security.generate_forgot_password now raw).2 }) := by
  refine ⟨⟨rfl, rfl, rfl⟩, ?_⟩
  intro st hreg
  constructor
  · simp [send_reset_email, hreg]
  · simp [send_reset_email, hreg]

/-- Witness for the amended C4 at the concrete demo account. -/
theorem c4_email_failure_isolation_witness :
    (send_reset_email 10 "a@x.com" "raw" true (some stDemo)).2
      = some { stDemo with
          security :=
            (stDemo.security.generate_forgot_password 10 "raw").2 } :=
  ((c4_email_failure_isolation 10 1 "a@x.com" "alice" "pw" "raw").2
    stDemo rfl).2

/-- C7 counterexample: for the resend-verification flow, an unregistered
email and a registered unverified one produce observably different
responses, the former naming the absence of the account, so the pair of
flows is not enumeration-resistant as claimed. -/
theorem c7_counterexample :
    resendValidateEmail none "ghost@x.com"
        = .error "No account found with this email."
    ∧ resendValidateEmail (some stDemo) "a@x.com" = .ok stDemo
    ∧ (Except.error "No account found with this email."
        : Except String AccountState) ≠ .ok stDemo := by
  refine ⟨rfl, rfl, by simp⟩

/-- C7 amended: ForgotPassword is enumeration-resistant, returning the
same generic success for a registered and an unregistered email when
dispatch succeeds; ResendVerification is not, since its serializer answers
an unregistered email with the message that no account was found, which
differs from the success it gives a registered unverified account. -/
theorem c7_enumeration_resistance (now : Nat) (raw email : String)
    (st : AccountState) (hreg : st.user.email = email) :
    (send_reset_email now email raw false (some st)).1
        = (send_reset_email now email raw false none).1
    ∧ (send_reset_email now email raw false none).1 = .ok ()
    ∧ resendValidateEmail none email
        = .error "No account found with this email."
    ∧ (st.user.is_verified = false →
        resendValidateEmail (some st) email = .ok st) := by
  refine ⟨?_, rfl, rfl, ?_⟩
  · simp [send_reset_email, hreg]
  · intro hv
    simp [resendValidateEmail, hreg, hv]

/-- Witness for the amended C7 at the concrete demo account. -/
theorem c7_enumeration_resistance_witness :
    (send_reset_email 10 "a@x.com" "raw" false (some stDemo)).1
        = (send_reset_email 10 "a@x.com" "raw" false none).1
    ∧ resendValidateEmail (some stDemo) "a@x.com" = .ok stDemo := by
  have A := c7_enumeration_resistance 10 "raw" "a@x.com" stDemo rfl
  exact ⟨A.1, A.2.2.2 rfl⟩

/-- C8 evaluation at the failing input: with a successful code exchange
and profile fetch the callback does not upsert and issue a session but
fails with the internal-server error, because step 3 references the
nonexistent login_type column of the User model inside the atomic block;
and the session-redirect fragment on its own would place the dict keys
access and refresh in the URL instead of the issued JWT strings, because
tuple-unpacking the generate_tokens dict binds its keys. -/
theorem c8_callback_evaluation :
    google_handle_callback 0 { access_token := some "ptok" }
        { email := some "g@x.com", name := some "G" } "https://app" 7 none
      = (.error .internalServer, none)
    ∧ google_handle_callback 0 { access_token := none }
        { email := some "g@x.com", name := some "G" } "https://app" 7 none
      = (.error .internalServer, none)
    ∧ oauthSessionRedirect 0 stDemo.user "https://app"
      = .ok "https://app/google/callback?access=access&refresh=refresh"
    ∧ (generate_tokens 0 stDemo.user).map Prod.snd ≠ ["access", "refresh"] := by
  refine ⟨rfl, rfl, rfl, by decide⟩

/-- C9: enabling 2FA succeeds exactly when it is not already enabled and
the code is valid for the stored secret; a stored secret accepts exactly
the codes derived from it within one time step of drift; and after two
setup calls the second secret replaces the first, so a code for the first
secret fails enabling with the authentication-failed error while a code
for the second succeeds. -/
theorem c9_enable_2fa_totp (nowStep : Int) (code : TotpCode)
    (st : UserSecurity) (s1 s2 : String) :
    ((∃ st2, enable_2fa nowStep code st = .ok st2)
       ↔ st.is_2fa_enabled = false ∧ st.verify_totp nowStep code = true)
    ∧ (∀ sec : String, st.totp_secret = some sec → ∀ k : Int,
        (st.verify_totp nowStep (totp_code sec (nowStep + k)) = true
          ↔ k.natAbs ≤ 1))
    ∧ (st.is_2fa_enabled = false → s1 ≠ s2 →
        ∀ r1 st1 r2 st2,
          setup_2fa s1 st = .ok (r1, st1) →
          setup_2fa s2 st1 = .ok (r2, st2) →
            enable_2fa nowStep (totp_code s1 nowStep) st2
                = .error .authenticationFailed
            ∧ enable_2fa nowStep (totp_code s2 nowStep) st2
                = .ok { st2 with is_2fa_enabled := true }) := by
  refine ⟨?_, ?_, ?_⟩
  · by_cases he : st.is_2fa_enabled = true
    · simp [enable_2fa, he]
    · by_cases hv : st.verify_totp nowStep code = true
      · simp [enable_2fa, he, hv]
      · simp [enable_2fa, he, hv]
  · intro sec hsec k
    simp [UserSecurity.verify_totp, hsec, totp_code]
  · intro he hne r1 st1 r2 st2 h1 h2
    simp [setup_2fa, he, UserSecurity.generate_totp_secret] at h1
    obtain ⟨-, hst1⟩ := h1
    subst hst1
    simp [setup_2fa, he, UserSecurity.generate_totp_secret] at h2
    obtain ⟨-, hst2⟩ := h2
    subst hst2
    have hbe : (s1 == s2) = false := beq_eq_false_iff_ne.mpr hne
    constructor
    · simp [enable_2fa, he, UserSecurity.verify_totp, totp_code, hbe]
    · simp [enable_2fa, he, UserSecurity.verify_totp, totp_code]

/-- Witness for C9 at concrete inputs: after setting up with secret A and
then secret B, the code for A fails to enable while the code for B
succeeds. -/
theorem c9_enable_2fa_totp_witness :
    enable_2fa 5 (totp_code "AAAA" 5)
        { UserSecurity.empty with totp_secret := some "BBBB" }
      = .error .authenticationFailed
    ∧ enable_2fa 5 (totp_code "BBBB" 5)
        { UserSecurity.empty with totp_secret := some "BBBB" }
      = .ok { UserSecurity.empty with
                totp_secret := some "BBBB", is_2fa_enabled := true } := by
  have A := (c9_enable_2fa_totp 5 (totp_code "AAAA" 5)
    UserSecurity.empty "AAAA" "BBBB").2.2 rfl (by decide)
    "AAAA" { UserSecurity.empty with totp_secret := some "AAAA" }
    "BBBB" { UserSecurity.empty with totp_secret := some "BBBB" }
    rfl rfl
  exact A

end FreeAPI
